import Mathlib

/-!
Verification of the fetch-or-generate cache component of the Shopanion
browser extension, as implemented in the background service worker
(`extension/src/scripts/background-service.js`, class `VTONBackground`).

The worker keeps all mutable state in `chrome.storage.local`, a key-value
map.  The keys it uses are:
  * `tryon_<userId>_<hashUrl(productUrl)>` — cache entries for try-on
    results, each a `{data, expiry}` wrapper;
  * `history` — a single bounded list of history entries;
  * `userId` and `settings` — profile data.

We embed the storage as a structure with one field per key family (the
cache keys as an association list, the fixed keys as options), and each
handler as a pure function of the storage, the current time (`Date.now()`
is modelled by one `now : Int` parameter per invocation, in milliseconds)
and an oracle giving the outcome the provider `fetch` would have.  A
thrown JavaScript error is modelled as an `Except.error` result.  Each
handler also reports the number of provider (`fetch`) calls it performed.
-/

set_option autoImplicit false

namespace Shopanion

/-! ## JavaScript 32-bit integer arithmetic and `hashUrl` -/

/-- JavaScript `ToInt32`: wrap an integer into `[-2^31, 2^31)`, as the
`x & x` and `<<` operations do. -/
def toInt32 (n : Int) : Int :=
  (n + 2 ^ 31) % 2 ^ 32 - 2 ^ 31

/-- One iteration of the loop in `hashUrl`:
`hash = ((hash << 5) - hash) + char; hash = hash & hash;`.
`hash << 5` wraps to 32 bits, and the final `& hash` converts the
(exact, double-precision) sum back to a 32-bit integer. -/
def hashStep (hash : Int) (char : Nat) : Int :=
  toInt32 (toInt32 (hash * 32) - hash + char)

/-- The UTF-16 code units of a character, matching JavaScript
`charCodeAt` (characters beyond the BMP become a surrogate pair). -/
def utf16CodeUnits (c : Char) : List Nat :=
  if c.toNat < 65536 then [c.toNat]
  else [55296 + (c.toNat - 65536) / 1024, 56320 + (c.toNat - 65536) % 1024]

/-- Digit characters used by JavaScript `Number.prototype.toString(36)`:
`0`–`9` then `a`–`z`. -/
def base36Digit (n : Nat) : Char :=
  if n < 10 then Char.ofNat (48 + n) else Char.ofNat (87 + n)

/-- Accumulate the base-36 digits of `n` (most significant first); the
`fuel` argument only bounds the recursion and never runs out when it
starts at least at the number of digits. -/
def toBase36Core (fuel : Nat) (n : Nat) (acc : List Char) : List Char :=
  match fuel with
  | 0 => acc
  | fuel + 1 => if n = 0 then acc else toBase36Core fuel (n / 36) (base36Digit (n % 36) :: acc)

/-- JavaScript `n.toString(36)` for a natural number. -/
def toBase36 (n : Nat) : String :=
  if n = 0 then "0" else String.mk (toBase36Core (n + 1) n [])

/-- Source `hashUrl(url)` from the background service: fold the 32-bit hash over
the UTF-16 code units of `url`, then `Math.abs(hash).toString(36)`. -/
def hashUrl (url : String) : String :=
  toBase36 (((url.data.map utf16CodeUnits).flatten.foldl hashStep 0).natAbs)

instance {ε α : Type} [DecidableEq ε] [DecidableEq α] : DecidableEq (Except ε α) := fun a b =>
  match a, b with
  | .ok x, .ok y =>
    if h : x = y then .isTrue (by rw [h]) else .isFalse (by intro hc; cases hc; exact h rfl)
  | .ok _, .error _ => .isFalse (by intro hc; cases hc)
  | .error _, .ok _ => .isFalse (by intro hc; cases hc)
  | .error x, .error y =>
    if h : x = y then .isTrue (by rw [h]) else .isFalse (by intro hc; cases hc; exact h rfl)

/-! ## Data model -/

/-- A successful try-on result returned by the MCP-A provider
(`POST /try_on`); `handleTryOn` stores it in the cache and reads
`result.image_url` for the history entry. -/
structure TryOnResult where
  image_url : String
deriving DecidableEq, Repr

/-- A cache entry as written by `saveToCache`: the wrapped result plus an
absolute expiry timestamp (`Date.now() + ttlMs`). -/
structure CacheEntry where
  data : TryOnResult
  expiry : Int
deriving DecidableEq, Repr

/-- A successful video result returned by the MCP-B provider
(`POST /animate`); `handleCreateVideo` reads `result.video_url` for the
history entry. -/
structure VideoResult where
  video_url : String
  captions : List String
deriving DecidableEq, Repr

/-- One entry of the `history` list: `handleTryOn` pushes
an object with type tag "tryon" (productUrl, imageUrl, timestamp) and
`handleCreateVideo` pushes one with type tag "video" (action, videoUrl,
timestamp). -/
inductive HistoryEntry where
  | tryon (productUrl : String) (imageUrl : String) (timestamp : Int)
  | video (act : String) (videoUrl : String) (timestamp : Int)
deriving DecidableEq, Repr

/-- The `settings` object; `initializeExtension` sets all three flags, a
plain `{}` has none of them. -/
structure Settings where
  autoDetect : Option Bool
  showNotifs : Option Bool
  cacheResults : Option Bool
deriving DecidableEq, Repr

/-- The settings object `{}` used as fallback by `getUserData`. -/
def emptySettings : Settings := ⟨none, none, none⟩

/-- The relevant contents of `chrome.storage.local`: the `tryon_*` cache
keys (an association list from key strings to cache entries), and the
`history`, `userId` and `settings` keys (`none` = key absent). -/
structure LocalStorage where
  cache : List (String × CacheEntry)
  history : Option (List HistoryEntry)
  userId : Option String
  settings : Option Settings
deriving DecidableEq, Repr

/-- Read a cache key from storage (`chrome.storage.local.get([key])`). -/
def storeGet (st : List (String × CacheEntry)) (key : String) : Option CacheEntry :=
  (st.find? (fun p => p.1 = key)).map (·.2)

/-- Overwrite a cache key in storage
(`chrome.storage.local.set({[key]: entry})`). -/
def storeSet (st : List (String × CacheEntry)) (key : String) (v : CacheEntry) :
    List (String × CacheEntry) :=
  (key, v) :: st.filter (fun p => p.1 ≠ key)

/-! ## Operations of the background service -/

/-- Source `getFromCache(key)`: return the wrapped data when the entry exists and
`cached.expiry > Date.now()`, else `null`. -/
def getFromCache (s : LocalStorage) (now : Int) (key : String) : Option TryOnResult :=
  match storeGet s.cache key with
  | some cached => if cached.expiry > now then some cached.data else none
  | none => none

/-- Source `saveToCache(key, data, ttlMs)`: store `{data, expiry: Date.now() + ttlMs}`
under `key`. -/
def saveToCache (s : LocalStorage) (now : Int) (key : String) (data : TryOnResult)
    (ttlMs : Int) : LocalStorage :=
  { s with cache := storeSet s.cache key ⟨data, now + ttlMs⟩ }

/-- Source `updateUserHistory(userId, entry)`: read the `history` key (default
`[]`), `unshift` the entry, `splice(20)` when the length exceeds 20, and
write the list back.  The `userId` argument is never used. -/
def updateUserHistory (s : LocalStorage) (userId : String) (entry : HistoryEntry) :
    LocalStorage :=
  let history := s.history.getD []
  let history := entry :: history
  let history := if history.length > 20 then history.take 20 else history
  { s with history := some history }

/-- The HTTP-level failure carried by a thrown service-error `Error`
(status and statusText of the failing response). -/
structure FetchError where
  status : Nat
  statusText : String
deriving DecidableEq, Repr

/-- The request object destructured by `handleTryOn`. -/
structure TryOnRequest where
  userId : String
  selfieUrl : String
  productUrl : String
  productImageUrl : String
deriving DecidableEq, Repr

/-- The cache key `tryon_${userId}_${this.hashUrl(productUrl)}` computed
by `handleTryOn`. -/
def requestCacheKey (r : TryOnRequest) : String :=
  "tryon_" ++ r.userId ++ "_" ++ hashUrl r.productUrl

/-- The TTL passed to `saveToCache` by `handleTryOn`:
`24 * 60 * 60 * 1000` milliseconds. -/
def tryOnTtlMs : Int := 24 * 60 * 60 * 1000

/-- The response of `handleTryOn`: the provider (or cached) result spread
together with the `cache_hit` flag. -/
structure TryOnResponse where
  result : TryOnResult
  cache_hit : Bool
deriving DecidableEq, Repr

/-- Outcome of one `handleTryOn` invocation: the returned value (or the
thrown error), the storage afterwards, and how many provider `fetch`
calls were made. -/
structure TryOnOutcome where
  response : Except FetchError TryOnResponse
  state : LocalStorage
  providerCalls : Nat
deriving DecidableEq, Repr

/-- Source `handleTryOn(data)`: compute the cache key, return the cached result
tagged `cache_hit: true` on a hit; otherwise `fetch` MCP-A (outcome given
by the oracle `provider`), throw on a non-ok response, and on success
cache the result for 24 hours, push a history entry, and return the
result tagged `cache_hit: false`. -/
def handleTryOn (s : LocalStorage) (now : Int) (provider : Except FetchError TryOnResult)
    (r : TryOnRequest) : TryOnOutcome :=
  let cacheKey := requestCacheKey r
  match getFromCache s now cacheKey with
  | some cached => ⟨.ok ⟨cached, true⟩, s, 0⟩
  | none =>
    match provider with
    | .error e => ⟨.error e, s, 1⟩
    | .ok result =>
      let s := saveToCache s now cacheKey result tryOnTtlMs
      let s := updateUserHistory s r.userId (.tryon r.productUrl result.image_url now)
      ⟨.ok ⟨result, false⟩, s, 1⟩

/-- The request object destructured by `handleCreateVideo`; `duration`
and `aspect` are optional with defaults `4` and `"9:16"`. -/
structure VideoRequest where
  userId : String
  imageUrl : String
  act : String
  duration : Option Int
  aspect : Option String
deriving DecidableEq, Repr

/-- The `duration = 4` default of the destructuring in `handleCreateVideo`. -/
def videoDuration (r : VideoRequest) : Int := r.duration.getD 4

/-- The default aspect (the string `"9:16"`) of the destructuring in
`handleCreateVideo`. -/
def videoAspect (r : VideoRequest) : String := r.aspect.getD "9:16"

/-- Errors surfaced by the video path: a validation rejection from the
MCP-B service, or a failing HTTP response. -/
inductive VideoError where
  | validation (msg : String)
  | service (e : FetchError)
deriving DecidableEq, Repr

/-- Outcome of one `handleCreateVideo` invocation. -/
structure VideoOutcome where
  response : Except VideoError VideoResult
  state : LocalStorage
  providerCalls : Nat
deriving DecidableEq, Repr

/-- Source `handleCreateVideo(data)`: unconditionally `fetch` the MCP-B
`/animate` endpoint (response given by the oracle `animateResp`), throw
on a non-ok response, and on success push a history entry and return the
result.  No cache key is read or written. -/
def handleCreateVideo (s : LocalStorage) (now : Int)
    (animateResp : Except VideoError VideoResult) (r : VideoRequest) : VideoOutcome :=
  match animateResp with
  | .error e => ⟨.error e, s, 1⟩
  | .ok result =>
    let s := updateUserHistory s r.userId (.video r.act result.video_url now)
    ⟨.ok result, s, 1⟩

/-- The `getUserData()` return value. -/
structure UserDataResponse where
  userId : Option String
  settings : Settings
  history : List HistoryEntry
deriving DecidableEq, Repr

/-- Source `getUserData()`: read `userId`, `settings` and `history`, supplying
`{}` and `[]` as fallbacks; nothing is written. -/
def getUserData (s : LocalStorage) : UserDataResponse × LocalStorage :=
  (⟨s.userId, s.settings.getD emptySettings, s.history.getD []⟩, s)

/-! ## The MCP-B request validation (not part of the extension sources) -/

/-- The body `handleCreateVideo` posts to the MCP-B `/animate` endpoint. -/
structure AnimateBody where
  user_id : String
  image_url : String
  act : String
  duration_s : Int
  aspect : String
deriving DecidableEq, Repr

/-- The `JSON.stringify` body of the `fetch` in `handleCreateVideo`. -/
def animateBody (r : VideoRequest) : AnimateBody :=
  ⟨r.userId, r.imageUrl, r.act, videoDuration r, videoAspect r⟩

/-- Modelled from the spec: the aspect ratios the MCP-B service accepts —
a closed set of accepted values; the service sources (`mcp_video/app.py`)
are not in the repository snapshot, and its README supports only the
vertical `9:16` ratio. -/
def acceptedAspects : List String := ["9:16"]

/-- Modelled from the spec: the request validation of the MCP-B
`/animate` endpoint, whose implementation (`mcp_video/app.py`) is not in
the repository snapshot.  Per the spec, all parameters must pass basic
shape validation — duration within the accepted 3–6 second range, aspect
ratio in a closed accepted set — and violations fail fast with a
validation error and make no provider call; otherwise the external
generation provider is invoked (outcome given by the `miniMax` oracle)
and its result or failure is returned.  The second component counts the
generation-provider calls made. -/
def mcpAnimate (miniMax : Except FetchError VideoResult) (body : AnimateBody) :
    Except VideoError VideoResult × Nat :=
  if body.duration_s < 3 ∨ 6 < body.duration_s then
    (.error (.validation "duration out of range"), 0)
  else if ¬ acceptedAspects.contains body.aspect then
    (.error (.validation "unsupported aspect ratio"), 0)
  else
    match miniMax with
    | .error e => (.error (.service e), 1)
    | .ok result => (.ok result, 1)

/-- Outcome of the composed video path: the extension handler in front of
the (spec-modelled) MCP-B endpoint; `providerCalls` counts the calls to
the external generation provider behind MCP-B. -/
def handleCreateVideoPipeline (s : LocalStorage) (now : Int)
    (miniMax : Except FetchError VideoResult) (r : VideoRequest) : VideoOutcome :=
  let (resp, calls) := mcpAnimate miniMax (animateBody r)
  let o := handleCreateVideo s now resp r
  ⟨o.response, o.state, calls⟩

/-- Number of entries stored under the `history` key (an absent key counts
as the empty list, as every reader supplies `[]` as the fallback). -/
def histLen (s : LocalStorage) : Nat := (s.history.getD []).length

/-- One storage mutation performed by a resolve-style handler of the
background service. -/
inductive ResolveStep : LocalStorage → LocalStorage → Prop where
  | tryOn (s : LocalStorage) (now : Int) (p : Except FetchError TryOnResult)
      (r : TryOnRequest) : ResolveStep s (handleTryOn s now p r).state
  | createVideo (s : LocalStorage) (now : Int) (resp : Except VideoError VideoResult)
      (r : VideoRequest) : ResolveStep s (handleCreateVideo s now resp r).state

/-! ## General lemmas about the operations -/

theorem storeGet_storeSet_self (st : List (String × CacheEntry)) (k : String) (v : CacheEntry) :
    storeGet (storeSet st k v) k = some v := by
  simp [storeGet, storeSet]

theorem updateUserHistory_history (s : LocalStorage) (uid : String) (e : HistoryEntry) :
    (updateUserHistory s uid e).history = some ((e :: s.history.getD []).take 20) := by
  simp only [updateUserHistory]
  split
  · rfl
  · rw [List.take_of_length_le (by omega)]

theorem histLen_updateUserHistory_le (s : LocalStorage) (uid : String) (e : HistoryEntry) :
    histLen (updateUserHistory s uid e) ≤ 20 := by
  simp [histLen, updateUserHistory_history]

theorem getFromCache_some_elim {s : LocalStorage} {now : Int} {k : String} {d : TryOnResult}
    (h : getFromCache s now k = some d) :
    ∃ c, storeGet s.cache k = some c ∧ now < c.expiry ∧ d = c.data := by
  unfold getFromCache at h
  cases hg : storeGet s.cache k with
  | none => rw [hg] at h; cases h
  | some c =>
    rw [hg] at h
    change (if c.expiry > now then some c.data else none) = some d at h
    by_cases hexp : c.expiry > now
    · rw [if_pos hexp] at h
      exact ⟨c, rfl, by omega, (Option.some.inj h).symm⟩
    · rw [if_neg hexp] at h
      cases h

theorem getFromCache_some_intro {s : LocalStorage} (now : Int) {k : String} {c : CacheEntry}
    (hg : storeGet s.cache k = some c) (hlt : now < c.expiry) :
    getFromCache s now k = some c.data := by
  unfold getFromCache
  rw [hg]
  show (if c.expiry > now then some c.data else none) = some c.data
  rw [if_pos (by omega)]

theorem getFromCache_expired {s : LocalStorage} {k : String} {c : CacheEntry} {t : Int}
    (hg : storeGet s.cache k = some c) (hexp : c.expiry ≤ t) :
    getFromCache s t k = none := by
  unfold getFromCache
  rw [hg]
  show (if c.expiry > t then some c.data else none) = none
  rw [if_neg (by omega)]

theorem getFromCache_none_mono {s : LocalStorage} {k : String} {t1 t2 : Int}
    (h : getFromCache s t1 k = none) (hle : t1 ≤ t2) : getFromCache s t2 k = none := by
  cases hg : storeGet s.cache k with
  | none => unfold getFromCache; rw [hg]
  | some c =>
    unfold getFromCache at h
    rw [hg] at h
    change (if c.expiry > t1 then some c.data else none) = none at h
    by_cases hexp : c.expiry > t1
    · rw [if_pos hexp] at h; cases h
    · exact getFromCache_expired hg (by omega)

theorem handleTryOn_hit (s : LocalStorage) (now : Int) (p : Except FetchError TryOnResult)
    (r : TryOnRequest) (c : TryOnResult)
    (h : getFromCache s now (requestCacheKey r) = some c) :
    handleTryOn s now p r = ⟨.ok ⟨c, true⟩, s, 0⟩ := by
  simp [handleTryOn, h]

theorem handleTryOn_miss_ok (s : LocalStorage) (now : Int) (res : TryOnResult)
    (r : TryOnRequest) (h : getFromCache s now (requestCacheKey r) = none) :
    handleTryOn s now (.ok res) r =
      ⟨.ok ⟨res, false⟩,
        updateUserHistory (saveToCache s now (requestCacheKey r) res tryOnTtlMs) r.userId
          (.tryon r.productUrl res.image_url now), 1⟩ := by
  simp [handleTryOn, h]

theorem handleTryOn_miss_error (s : LocalStorage) (now : Int) (e : FetchError)
    (r : TryOnRequest) (h : getFromCache s now (requestCacheKey r) = none) :
    handleTryOn s now (.error e) r = ⟨.error e, s, 1⟩ := by
  simp [handleTryOn, h]

theorem histLen_step_le {s s' : LocalStorage} (h : ResolveStep s s') (hs : histLen s ≤ 20) :
    histLen s' ≤ 20 := by
  cases h with
  | tryOn now p r =>
    cases hg : getFromCache s now (requestCacheKey r) with
    | some c => rw [handleTryOn_hit s now p r c hg]; exact hs
    | none =>
      cases p with
      | error e => rw [handleTryOn_miss_error s now e r hg]; exact hs
      | ok res =>
        rw [handleTryOn_miss_ok s now res r hg]
        exact histLen_updateUserHistory_le _ r.userId _
  | createVideo now resp r =>
    cases resp with
    | error e => exact hs
    | ok res => exact histLen_updateUserHistory_le _ r.userId _

/-! ## Claim theorems -/

/-- C1: after a prior `handleTryOn` for request `r` that missed the cache and
succeeded with result `res` at time `t1`, a second `handleTryOn` for the same
request issued at any `t2` before the 24-hour TTL has elapsed returns the
identical artifact tagged `cache_hit = true` and makes zero provider calls;
moreover every invocation makes at most one provider call, and every returned
(non-thrown) result is either a verified unexpired cache entry or exactly the
fresh successful provider result — never a partial or failed state. -/
theorem tryOn_cache_hit_correctness
    (s : LocalStorage) (t1 t2 : Int) (res : TryOnResult) (r : TryOnRequest)
    (p2 : Except FetchError TryOnResult)
    (hmiss : getFromCache s t1 (requestCacheKey r) = none)
    (hfresh : t2 < t1 + tryOnTtlMs) :
    ((handleTryOn (handleTryOn s t1 (.ok res) r).state t2 p2 r).response =
        .ok ⟨res, true⟩ ∧
      (handleTryOn (handleTryOn s t1 (.ok res) r).state t2 p2 r).providerCalls = 0) ∧
    ∀ (s' : LocalStorage) (now : Int) (p : Except FetchError TryOnResult),
      (handleTryOn s' now p r).providerCalls ≤ 1 ∧
      ∀ resp, (handleTryOn s' now p r).response = .ok resp →
        (resp.cache_hit = true ∧ ∃ c, storeGet s'.cache (requestCacheKey r) = some c ∧
            now < c.expiry ∧ resp.result = c.data) ∨
        (resp.cache_hit = false ∧ p = .ok resp.result) := by
  constructor
  · rw [handleTryOn_miss_ok s t1 res r hmiss]
    have hc : storeGet (updateUserHistory (saveToCache s t1 (requestCacheKey r) res tryOnTtlMs)
        r.userId (HistoryEntry.tryon r.productUrl res.image_url t1)).cache (requestCacheKey r) =
        some ⟨res, t1 + tryOnTtlMs⟩ := storeGet_storeSet_self s.cache (requestCacheKey r) _
    have hgc := getFromCache_some_intro t2 hc (by simpa using hfresh)
    rw [handleTryOn_hit _ t2 p2 r res hgc]
    exact ⟨rfl, rfl⟩
  · intro s' now p
    refine ⟨?_, ?_⟩
    · cases hg : getFromCache s' now (requestCacheKey r) with
      | some c => rw [handleTryOn_hit s' now p r c hg]; exact Nat.zero_le 1
      | none =>
        cases p with
        | error e => rw [handleTryOn_miss_error s' now e r hg]
        | ok pres => rw [handleTryOn_miss_ok s' now pres r hg]
    · intro resp hresp
      cases hg : getFromCache s' now (requestCacheKey r) with
      | some c0 =>
        rw [handleTryOn_hit s' now p r c0 hg] at hresp
        obtain ⟨c, hc, hlt, hdata⟩ := getFromCache_some_elim hg
        cases Except.ok.inj hresp
        exact Or.inl ⟨rfl, c, hc, hlt, hdata⟩
      | none =>
        cases p with
        | error e =>
          rw [handleTryOn_miss_error s' now e r hg] at hresp
          cases hresp
        | ok pres =>
          rw [handleTryOn_miss_ok s' now pres r hg] at hresp
          cases Except.ok.inj hresp
          exact Or.inr ⟨rfl, rfl⟩

/-- Witness for C1 at a concrete request, empty storage, `t1 = 0`, `t2 = 1`:
the second resolve hits even though its provider oracle would fail. -/
theorem tryOn_cache_hit_correctness_witness :
    getFromCache ⟨[], none, none, none⟩ 0
        (requestCacheKey ⟨"u", "selfie", "p", "pimg"⟩) = none ∧
      (1 : Int) < 0 + tryOnTtlMs ∧
      (handleTryOn (handleTryOn ⟨[], none, none, none⟩ 0 (.ok ⟨"img"⟩)
            ⟨"u", "selfie", "p", "pimg"⟩).state 1 (.error ⟨500, "err"⟩)
          ⟨"u", "selfie", "p", "pimg"⟩).response = .ok ⟨⟨"img"⟩, true⟩ :=
  ⟨rfl, by decide,
    ((tryOn_cache_hit_correctness ⟨[], none, none, none⟩ 0 1 ⟨"img"⟩
        ⟨"u", "selfie", "p", "pimg"⟩ (.error ⟨500, "err"⟩) rfl (by decide)).1).1⟩

/-- C2 counterexample: starting from empty storage, a fresh `handleTryOn`
succeeds at time 0, and a second, identical `handleTryOn` succeeds (as a cache
hit) at time 1 — yet afterwards the history still holds only the first call's
entry, so the second successful call's entry was not inserted at the head,
refuting the claim that each successful call's entry is inserted. -/
theorem history_head_insert_cex :
    (handleTryOn (handleTryOn ⟨[], none, none, none⟩ 0 (.ok ⟨"img"⟩)
          ⟨"u", "selfie", "p", "pimg"⟩).state 1 (.ok ⟨"img2"⟩)
        ⟨"u", "selfie", "p", "pimg"⟩).response = .ok ⟨⟨"img"⟩, true⟩ ∧
      (handleTryOn (handleTryOn ⟨[], none, none, none⟩ 0 (.ok ⟨"img"⟩)
            ⟨"u", "selfie", "p", "pimg"⟩).state 1 (.ok ⟨"img2"⟩)
          ⟨"u", "selfie", "p", "pimg"⟩).state.history =
        some [.tryon "p" "img" 0] := by
  constructor <;> decide

/-- C2 (amended): across any sequence of resolve-style calls the history never
exceeds 20 entries; each successful call that performs a fresh generation
inserts its entry at the head, truncating the tail down to the 20-entry bound;
a cache-hit call leaves the storage (hence the history) unchanged. -/
theorem history_bound_invariant :
    (∀ (s s' : LocalStorage), histLen s ≤ 20 →
        Relation.ReflTransGen ResolveStep s s' → histLen s' ≤ 20) ∧
    (∀ (s : LocalStorage) (now : Int) (res : TryOnResult) (r : TryOnRequest),
        getFromCache s now (requestCacheKey r) = none →
        (handleTryOn s now (.ok res) r).state.history =
          some ((HistoryEntry.tryon r.productUrl res.image_url now ::
            s.history.getD []).take 20)) ∧
    (∀ (s : LocalStorage) (now : Int) (p : Except FetchError TryOnResult) (r : TryOnRequest)
        (c : TryOnResult), getFromCache s now (requestCacheKey r) = some c →
        (handleTryOn s now p r).state = s) := by
  refine ⟨?_, ?_, ?_⟩
  · intro s s' hs h
    induction h with
    | refl => exact hs
    | tail _ hstep ih => exact histLen_step_le hstep ih
  · intro s now res r h
    rw [handleTryOn_miss_ok s now res r h]
    exact updateUserHistory_history _ r.userId _
  · intro s now p r c h
    rw [handleTryOn_hit s now p r c h]

/-- Witness for C2 at a single concrete resolve step from empty storage. -/
theorem history_bound_invariant_witness :
    histLen ⟨[], none, none, none⟩ ≤ 20 ∧
      histLen (handleTryOn ⟨[], none, none, none⟩ 0 (.ok ⟨"img"⟩)
        ⟨"u", "selfie", "p", "pimg"⟩).state ≤ 20 ∧
      (handleTryOn ⟨[], none, none, none⟩ 0 (.ok ⟨"img"⟩)
          ⟨"u", "selfie", "p", "pimg"⟩).state.history = some [.tryon "p" "img" 0] :=
  ⟨by decide,
    history_bound_invariant.1 ⟨[], none, none, none⟩ _ (by decide)
      (Relation.ReflTransGen.single
        (ResolveStep.tryOn ⟨[], none, none, none⟩ 0 (.ok ⟨"img"⟩) ⟨"u", "selfie", "p", "pimg"⟩)),
    by
      have h := history_bound_invariant.2.1 ⟨[], none, none, none⟩ 0 ⟨"img"⟩
        ⟨"u", "selfie", "p", "pimg"⟩ rfl
      simpa using h⟩

/-- C3: whenever a resolve-style call throws (which happens exactly when the
provider call fails), the storage — cache and history alike — is unchanged
from its pre-call state, and a subsequent identical try-on request at any
later time makes a fresh provider attempt (exactly one provider call) rather
than hitting a poisoned cache entry; likewise a failing video call leaves the
storage unchanged. -/
theorem provider_failure_no_pollution :
    (∀ (s : LocalStorage) (now t2 : Int) (p p2 : Except FetchError TryOnResult)
        (e : FetchError) (r : TryOnRequest),
        (handleTryOn s now p r).response = .error e →
          (handleTryOn s now p r).state = s ∧
          (now ≤ t2 → (handleTryOn s t2 p2 r).providerCalls = 1)) ∧
    (∀ (s : LocalStorage) (now : Int) (resp : Except VideoError VideoResult)
        (e : VideoError) (r : VideoRequest),
        (handleCreateVideo s now resp r).response = .error e →
          (handleCreateVideo s now resp r).state = s) := by
  constructor
  · intro s now t2 p p2 e r hresp
    cases hg : getFromCache s now (requestCacheKey r) with
    | some c =>
      rw [handleTryOn_hit s now p r c hg] at hresp
      cases hresp
    | none =>
      cases p with
      | ok pres =>
        rw [handleTryOn_miss_ok s now pres r hg] at hresp
        cases hresp
      | error e2 =>
        rw [handleTryOn_miss_error s now e2 r hg]
        refine ⟨rfl, fun hle => ?_⟩
        have h2 := getFromCache_none_mono hg hle
        cases p2 with
        | error e3 => rw [handleTryOn_miss_error s t2 e3 r h2]
        | ok pres2 => rw [handleTryOn_miss_ok s t2 pres2 r h2]
  · intro s now resp e r hresp
    cases resp with
    | error e2 => rfl
    | ok res => cases hresp

/-- Witness for C3: a failing provider at time 0 over empty storage, retried
successfully at time 5. -/
theorem provider_failure_no_pollution_witness :
    (handleTryOn ⟨[], none, none, none⟩ 0 (.error ⟨500, "err"⟩)
        ⟨"u", "selfie", "p", "pimg"⟩).response = .error ⟨500, "err"⟩ ∧
      (handleTryOn ⟨[], none, none, none⟩ 0 (.error ⟨500, "err"⟩)
          ⟨"u", "selfie", "p", "pimg"⟩).state = ⟨[], none, none, none⟩ ∧
      (handleTryOn ⟨[], none, none, none⟩ 5 (.ok ⟨"img"⟩)
          ⟨"u", "selfie", "p", "pimg"⟩).providerCalls = 1 :=
  ⟨rfl,
    (provider_failure_no_pollution.1 ⟨[], none, none, none⟩ 0 5 (.error ⟨500, "err"⟩)
      (.ok ⟨"img"⟩) ⟨500, "err"⟩ ⟨"u", "selfie", "p", "pimg"⟩ rfl).1,
    (provider_failure_no_pollution.1 ⟨[], none, none, none⟩ 0 5 (.error ⟨500, "err"⟩)
      (.ok ⟨"img"⟩) ⟨500, "err"⟩ ⟨"u", "selfie", "p", "pimg"⟩ rfl).2 (by decide)⟩

/-- C4 counterexample: with a valid cache entry present and an empty history
list, the resolve call hits the cache and returns successfully with no
provider call — but the history is still empty afterwards, refuting the
claim that a history entry is still appended on a cache hit. -/
theorem cache_hit_history_cex :
    (handleTryOn ⟨[(requestCacheKey ⟨"u", "selfie", "p", "pimg"⟩, ⟨⟨"img"⟩, 100⟩)],
          some [], none, none⟩ 0 (.ok ⟨"other"⟩) ⟨"u", "selfie", "p", "pimg"⟩).response =
        .ok ⟨⟨"img"⟩, true⟩ ∧
      (handleTryOn ⟨[(requestCacheKey ⟨"u", "selfie", "p", "pimg"⟩, ⟨⟨"img"⟩, 100⟩)],
          some [], none, none⟩ 0 (.ok ⟨"other"⟩)
        ⟨"u", "selfie", "p", "pimg"⟩).providerCalls = 0 ∧
      (handleTryOn ⟨[(requestCacheKey ⟨"u", "selfie", "p", "pimg"⟩, ⟨⟨"img"⟩, 100⟩)],
          some [], none, none⟩ 0 (.ok ⟨"other"⟩)
        ⟨"u", "selfie", "p", "pimg"⟩).state.history = some [] := by
  refine ⟨?_, ?_, ?_⟩ <;> decide

/-- C4 (amended): on a cache hit (entry present and not expired), resolve
returns the stored artifact reference tagged as a cache hit and makes no
provider call; it does not append a history entry — the storage is returned
unchanged (history records only fresh generations). -/
theorem cache_hit_no_history_append
    (s : LocalStorage) (now : Int) (p : Except FetchError TryOnResult) (r : TryOnRequest)
    (c : TryOnResult) (h : getFromCache s now (requestCacheKey r) = some c) :
    (handleTryOn s now p r).response = .ok ⟨c, true⟩ ∧
      (handleTryOn s now p r).providerCalls = 0 ∧
      (handleTryOn s now p r).state = s := by
  rw [handleTryOn_hit s now p r c h]
  exact ⟨rfl, rfl, rfl⟩

/-- Witness for C4 at a concrete storage holding one unexpired entry. -/
theorem cache_hit_no_history_append_witness :
    getFromCache ⟨[(requestCacheKey ⟨"u", "selfie", "p", "pimg"⟩, ⟨⟨"img"⟩, 100⟩)],
        some [], none, none⟩ 0 (requestCacheKey ⟨"u", "selfie", "p", "pimg"⟩) =
      some ⟨"img"⟩ ∧
    (handleTryOn ⟨[(requestCacheKey ⟨"u", "selfie", "p", "pimg"⟩, ⟨⟨"img"⟩, 100⟩)],
        some [], none, none⟩ 0 (.ok ⟨"other"⟩) ⟨"u", "selfie", "p", "pimg"⟩).state =
      ⟨[(requestCacheKey ⟨"u", "selfie", "p", "pimg"⟩, ⟨⟨"img"⟩, 100⟩)],
        some [], none, none⟩ :=
  ⟨by decide,
    (cache_hit_no_history_append _ 0 (.ok ⟨"other"⟩) ⟨"u", "selfie", "p", "pimg"⟩
      ⟨"img"⟩ (by decide)).2.2⟩

/-- C5: a video request whose duration lies outside the accepted 3–6 second
range is rejected by the (spec-modelled) MCP-B validation before the external
generation provider is ever called: the pipeline surfaces a validation error,
makes zero generation-provider calls, and leaves the storage (in particular
the history) unchanged. -/
theorem video_duration_validation
    (s : LocalStorage) (now : Int) (miniMax : Except FetchError VideoResult)
    (r : VideoRequest) (h : videoDuration r < 3 ∨ 6 < videoDuration r) :
    (handleCreateVideoPipeline s now miniMax r).response =
        .error (.validation "duration out of range") ∧
      (handleCreateVideoPipeline s now miniMax r).providerCalls = 0 ∧
      (handleCreateVideoPipeline s now miniMax r).state = s := by
  have hb : (animateBody r).duration_s < 3 ∨ 6 < (animateBody r).duration_s := h
  unfold handleCreateVideoPipeline mcpAnimate
  rw [if_pos hb]
  exact ⟨rfl, rfl, rfl⟩

/-- Witness for C5 at `duration = 10`. -/
theorem video_duration_validation_witness :
    (videoDuration ⟨"u", "img", "turn", some 10, none⟩ < 3 ∨
        6 < videoDuration ⟨"u", "img", "turn", some 10, none⟩) ∧
      (handleCreateVideoPipeline ⟨[], some [], none, none⟩ 0 (.ok ⟨"v.mp4", []⟩)
          ⟨"u", "img", "turn", some 10, none⟩).providerCalls = 0 ∧
      (handleCreateVideoPipeline ⟨[], some [], none, none⟩ 0 (.ok ⟨"v.mp4", []⟩)
          ⟨"u", "img", "turn", some 10, none⟩).state = ⟨[], some [], none, none⟩ :=
  ⟨by decide,
    (video_duration_validation ⟨[], some [], none, none⟩ 0 (.ok ⟨"v.mp4", []⟩)
      ⟨"u", "img", "turn", some 10, none⟩ (by decide)).2.1,
    (video_duration_validation ⟨[], some [], none, none⟩ 0 (.ok ⟨"v.mp4", []⟩)
      ⟨"u", "img", "turn", some 10, none⟩ (by decide)).2.2⟩

/-- C6: when the stored entry under the request's key has expired (its expiry
is at or before the request time), resolve treats it as absent — the cache
read yields nothing, exactly one provider call is made whatever the provider
outcome — and on provider success the entry under the same key is overwritten
with the fresh result and the new expiry `t2 + 24h`. -/
theorem cache_expiry_refresh
    (s : LocalStorage) (t2 : Int) (c : CacheEntry) (res2 : TryOnResult) (r : TryOnRequest)
    (hg : storeGet s.cache (requestCacheKey r) = some c) (hexp : c.expiry ≤ t2) :
    getFromCache s t2 (requestCacheKey r) = none ∧
      (∀ p, (handleTryOn s t2 p r).providerCalls = 1) ∧
      (handleTryOn s t2 (.ok res2) r).response = .ok ⟨res2, false⟩ ∧
      storeGet (handleTryOn s t2 (.ok res2) r).state.cache (requestCacheKey r) =
        some ⟨res2, t2 + tryOnTtlMs⟩ := by
  have hnone : getFromCache s t2 (requestCacheKey r) = none := getFromCache_expired hg hexp
  refine ⟨hnone, ?_, ?_, ?_⟩
  · intro p
    cases p with
    | error e => rw [handleTryOn_miss_error s t2 e r hnone]
    | ok pres => rw [handleTryOn_miss_ok s t2 pres r hnone]
  · rw [handleTryOn_miss_ok s t2 res2 r hnone]
  · rw [handleTryOn_miss_ok s t2 res2 r hnone]
    exact storeGet_storeSet_self s.cache (requestCacheKey r) ⟨res2, t2 + tryOnTtlMs⟩

/-- Witness for C6: a concrete storage whose entry expired at time 5,
resolved again at time 10. -/
theorem cache_expiry_refresh_witness :
    storeGet [(requestCacheKey ⟨"u", "selfie", "p", "pimg"⟩, ⟨⟨"old"⟩, 5⟩)]
        (requestCacheKey ⟨"u", "selfie", "p", "pimg"⟩) = some ⟨⟨"old"⟩, 5⟩ ∧
      (5 : Int) ≤ 10 ∧
      storeGet (handleTryOn ⟨[(requestCacheKey ⟨"u", "selfie", "p", "pimg"⟩, ⟨⟨"old"⟩, 5⟩)],
            some [], none, none⟩ 10 (.ok ⟨"new"⟩)
          ⟨"u", "selfie", "p", "pimg"⟩).state.cache
        (requestCacheKey ⟨"u", "selfie", "p", "pimg"⟩) =
        some ⟨⟨"new"⟩, 10 + tryOnTtlMs⟩ :=
  ⟨by decide, by decide,
    (cache_expiry_refresh ⟨[(requestCacheKey ⟨"u", "selfie", "p", "pimg"⟩, ⟨⟨"old"⟩, 5⟩)],
      some [], none, none⟩ 10 ⟨⟨"old"⟩, 5⟩ ⟨"new"⟩ ⟨"u", "selfie", "p", "pimg"⟩
      (by decide) (by decide)).2.2.2⟩

/-- C7: the cache-key fingerprint is deterministic — it is a function of the
`(user_id, input_ref)` pair alone, so any two requests agreeing on user id and
product URL (whatever their other fields) produce the identical cache key. -/
theorem fingerprint_deterministic
    (r1 r2 : TryOnRequest) (hu : r1.userId = r2.userId)
    (hp : r1.productUrl = r2.productUrl) :
    requestCacheKey r1 = requestCacheKey r2 := by
  simp [requestCacheKey, hu, hp]

/-- Witness for C7: two requests differing in selfie and product-image fields
share the cache key. -/
theorem fingerprint_deterministic_witness :
    requestCacheKey ⟨"u1", "selfieA", "https://shop.example/products/42", "imgA"⟩ =
      requestCacheKey ⟨"u1", "selfieB", "https://shop.example/products/42", "imgB"⟩ :=
  fingerprint_deterministic
    ⟨"u1", "selfieA", "https://shop.example/products/42", "imgA"⟩
    ⟨"u1", "selfieB", "https://shop.example/products/42", "imgB"⟩ rfl rfl

/-- C8: `getUserData` is a pure read — it returns the storage unchanged
(cache, history, settings and userId alike), reports the stored history
as-is with `[]` (not an error) for an absent history, and the stored order
is most-recent-first: after any history update the newest entry is the head
of what `getUserData` reports. -/
theorem getUserData_pure_read :
    ∀ (s : LocalStorage),
      (getUserData s).2 = s ∧
      (getUserData s).1.history = s.history.getD [] ∧
      (s.history = none → (getUserData s).1.history = []) ∧
      ∀ (s' : LocalStorage) (uid : String) (e : HistoryEntry),
        ((getUserData (updateUserHistory s' uid e)).1.history).head? = some e := by
  intro s
  refine ⟨rfl, rfl, ?_, ?_⟩
  · intro h
    simp [getUserData, h]
  · intro s' uid e
    show ((updateUserHistory s' uid e).history.getD []).head? = some e
    rw [updateUserHistory_history]
    rfl

/-- Witness for C8 at empty storage and a one-entry update. -/
theorem getUserData_pure_read_witness :
    (getUserData ⟨[], none, none, none⟩).2 = ⟨[], none, none, none⟩ ∧
      (getUserData ⟨[], none, none, none⟩).1.history = [] ∧
      ((getUserData (updateUserHistory ⟨[], none, none, none⟩ "u"
        (.tryon "p" "img" 0))).1.history).head? = some (.tryon "p" "img" 0) :=
  ⟨(getUserData_pure_read ⟨[], none, none, none⟩).1,
    (getUserData_pure_read ⟨[], none, none, none⟩).2.2.1 rfl,
    (getUserData_pure_read ⟨[], none, none, none⟩).2.2.2 ⟨[], none, none, none⟩ "u"
      (.tryon "p" "img" 0)⟩

/-- C9: the video-generation path performs no caching at all — every
`handleCreateVideo` invocation, from any prior storage state (hence also one
left by an identical previous success), makes exactly one provider call,
leaves every cache key (and the userId and settings) untouched, and its
response and resulting history are independent of the cache contents. -/
theorem createVideo_no_caching :
    ∀ (s : LocalStorage) (now : Int) (resp : Except VideoError VideoResult)
      (r : VideoRequest),
      (handleCreateVideo s now resp r).providerCalls = 1 ∧
      (handleCreateVideo s now resp r).state.cache = s.cache ∧
      (handleCreateVideo s now resp r).state.userId = s.userId ∧
      (handleCreateVideo s now resp r).state.settings = s.settings ∧
      ∀ (cache2 : List (String × CacheEntry)),
        (handleCreateVideo { s with cache := cache2 } now resp r).response =
            (handleCreateVideo s now resp r).response ∧
          (handleCreateVideo { s with cache := cache2 } now resp r).state.history =
            (handleCreateVideo s now resp r).state.history := by
  intro s now resp r
  cases resp with
  | error e => exact ⟨rfl, rfl, rfl, rfl, fun cache2 => ⟨rfl, rfl⟩⟩
  | ok res =>
    refine ⟨rfl, rfl, rfl, rfl, fun cache2 => ⟨rfl, ?_⟩⟩
    show (updateUserHistory { s with cache := cache2 } r.userId _).history =
      (updateUserHistory s r.userId _).history
    rw [updateUserHistory_history, updateUserHistory_history]

/-- C10: `updateUserHistory` ignores its `userId` argument — any two user
identifiers produce the identical storage update; every entry lands in the one
shared list under the single `history` key, whose new value is always the new
entry consed onto the old list truncated to 20; and when the shared list is
already at the 20-entry bound, an insertion under any user identifier evicts
the oldest entry (the resulting list is the new entry over the old list's
first 19 entries, and stays at length 20). -/
theorem updateUserHistory_ignores_userId :
    (∀ (s : LocalStorage) (uid1 uid2 : String) (e : HistoryEntry),
        updateUserHistory s uid1 e = updateUserHistory s uid2 e) ∧
    (∀ (s : LocalStorage) (uid : String) (e : HistoryEntry),
        (updateUserHistory s uid e).history =
          some ((e :: s.history.getD []).take 20)) ∧
    (∀ (s : LocalStorage) (uid : String) (e : HistoryEntry) (l : List HistoryEntry),
        s.history = some l → l.length = 20 →
        (updateUserHistory s uid e).history = some (e :: l.take 19) ∧
        histLen (updateUserHistory s uid e) = 20) := by
  refine ⟨fun s uid1 uid2 e => rfl, fun s uid e => updateUserHistory_history s uid e, ?_⟩
  intro s uid e l hl hlen
  constructor
  · rw [updateUserHistory_history, hl]
    rfl
  · show ((updateUserHistory s uid e).history.getD []).length = 20
    rw [updateUserHistory_history, hl]
    show ((e :: l).take 20).length = 20
    rw [List.length_take]
    simp [hlen]

/-- Witness for C10: two distinct user ids over a full 20-entry list. -/
theorem updateUserHistory_ignores_userId_witness :
    updateUserHistory ⟨[], some (List.replicate 20 (.video "turn" "v" 9)), none, none⟩
        "alice" (.tryon "p" "img" 0) =
      updateUserHistory ⟨[], some (List.replicate 20 (.video "turn" "v" 9)), none, none⟩
        "bob" (.tryon "p" "img" 0) ∧
    (updateUserHistory ⟨[], some (List.replicate 20 (.video "turn" "v" 9)), none, none⟩
        "alice" (.tryon "p" "img" 0)).history =
      some (.tryon "p" "img" 0 :: (List.replicate 20 (HistoryEntry.video "turn" "v" 9)).take 19) :=
  ⟨updateUserHistory_ignores_userId.1 _ "alice" "bob" (.tryon "p" "img" 0),
    ((updateUserHistory_ignores_userId.2.2 _ "alice" (.tryon "p" "img" 0)
      (List.replicate 20 (.video "turn" "v" 9)) rfl (by decide)).1)⟩

end Shopanion
